import Mathlib

/-!  Verification of the better-api-server chat gateway (final variant of
src/index.ts): JS value model, rate limiter, decommission detection,
OpenAI-to-Gemini message translation, model resolution, provider clients
with the single decommission retry, and the POST /v1/chat handler.  -/

set_option maxRecDepth 4096

/-- Model of the dynamic JS values the gateway inspects: strings, integer
numbers, booleans, null and undefined.  (Fractional numbers never reach a
truthiness or equality test in the embedded code paths.) -/
inductive JSVal where
  | str : String → JSVal
  | num : Int → JSVal
  | boolV : Bool → JSVal
  | jsNull : JSVal
  | undef : JSVal
deriving DecidableEq

/-- JS truthiness for the modelled values: `""`, `0`, `false`, `null`,
`undefined` are falsy, everything else truthy. -/
def jsTruthy : JSVal → Bool
  | JSVal.str s => s ≠ ""
  | JSVal.num n => n ≠ 0
  | JSVal.boolV b => b
  | JSVal.jsNull => false
  | JSVal.undef => false

/-- Whether a JS value is a string (`typeof v === 'string'`). -/
def isStrV : JSVal → Bool
  | JSVal.str _ => true
  | _ => false

/-- JS `String(v)` conversion for the modelled values. -/
def jsToString : JSVal → String
  | JSVal.str s => s
  | JSVal.num n => toString n
  | JSVal.boolV b => if b then "true" else "false"
  | JSVal.jsNull => "null"
  | JSVal.undef => "undefined"

/-- The whitespace characters recognised by the embedded `trim`/`parseInt`
(the ASCII subset of the JS WhiteSpace plus LineTerminator classes; the
gateway only ever produces these). -/
def isJsWs (c : Char) : Bool :=
  c = ' ' || c = '\t' || c = '\n' || c = '\r' || c = '\x0b' || c = '\x0c'

/-- JS `String.prototype.trim`: strip leading and trailing whitespace. -/
def jsTrim (s : String) : String :=
  String.mk (((s.toList.dropWhile isJsWs).reverse.dropWhile isJsWs).reverse)

/-- Decimal digit character for a digit value (0–9). -/
def digitCh : Nat → Char
  | 0 => '0' | 1 => '1' | 2 => '2' | 3 => '3' | 4 => '4'
  | 5 => '5' | 6 => '6' | 7 => '7' | 8 => '8' | _ => '9'

/-- Decimal rendering with explicit fuel (the fuel only needs to exceed
the number; structural recursion keeps the definition computable by the
kernel). -/
def natCharsAux : Nat → Nat → List Char
  | 0, _ => []
  | fuel + 1, n =>
    if n < 10 then [digitCh n]
    else natCharsAux fuel (n / 10) ++ [digitCh (n % 10)]

/-- Decimal rendering of a natural number as a character list, as JS
`String(n)` renders a nonnegative integer. -/
def natChars (n : Nat) : List Char := natCharsAux (n + 1) n

/-- JS `String(n)` for a natural number. -/
def natStr (n : Nat) : String := String.mk (natChars n)

/-- Numeric value of a decimal digit character. -/
def digitVal (c : Char) : Nat := c.toNat - 48

/-- Whether a character is a decimal digit. -/
def isDigitCh (c : Char) : Bool := 48 ≤ c.toNat && c.toNat ≤ 57

/-- Maximal leading run of decimal digits. -/
def takeDigits : List Char → List Char
  | [] => []
  | c :: r => if isDigitCh c then c :: takeDigits r else []

/-- Value of a digit-character list, most significant first. -/
def digitsToNat (l : List Char) : Nat :=
  l.foldl (fun a c => a * 10 + digitVal c) 0

/-- Parse the maximal digit run; `none` when there is no leading digit
(JS `parseInt` yielding `NaN`). -/
def parseDigits (l : List Char) : Option Nat :=
  if takeDigits l = [] then none else some (digitsToNat (takeDigits l))

/-- Sign handling of JS `parseInt`. -/
def parseSigned : List Char → Option Int
  | [] => none
  | c :: r =>
    if c = '-' then (parseDigits r).map (fun n => -(n : Int))
    else if c = '+' then (parseDigits r).map (fun n => (n : Int))
    else (parseDigits (c :: r)).map (fun n => (n : Int))

/-- JS `parseInt(s, 10)`: skip leading whitespace, optional sign, then the
maximal digit run; `none` models `NaN`. -/
def jsParseInt10 (s : String) : Option Int :=
  parseSigned (s.toList.dropWhile isJsWs)

/-- JS `String(x)` for the number produced by `parseInt(...) + 1`
(`none` models `NaN`, rendered `"NaN"`). -/
def jsNumStr : Option Int → String
  | none => "NaN"
  | some i => if i < 0 then "-" ++ natStr i.natAbs else natStr i.natAbs

/-- Rate-limit bucket key: `rl:id:floor(now / 600000)`, with empty client
ids replaced by `anon` (source `rateLimit`, final variant line 428). -/
def rateBucketKey (id : String) (nowMs : Nat) : String :=
  "rl:" ++ (if id = "" then "anon" else id) ++ ":" ++ natStr (nowMs / 600000)

/-- One `rateLimit` call against the stored bucket value: parse the stored
counter (absent reads as "0"), add one, persist the rendered value, and
admit exactly when the post-increment count is at most 60 (source lines
427–432).  Returns the newly stored value and the admission verdict. -/
def rateLimitCall (stored : Option String) : Option String × Bool :=
  let parsed := jsParseInt10 (stored.getD "0")
  let current : Option Int := parsed.map (fun n => n + 1)
  (some (jsNumStr current),
   match current with
   | some n => decide (n ≤ 60)
   | none => false)

/-- Stored bucket value after `k` rate-limit calls that started from an
absent key (a fresh 10-minute window). -/
def rlState : Nat → Option String
  | 0 => none
  | k + 1 => (rateLimitCall (rlState k)).1

/-- Whether one of the two decommission keywords starts at this position
(the alternation `(decommissioned|not found)` of the source regex). -/
def kwAt (s : List Char) : Bool :=
  "decommissioned".toList.isPrefixOf s || "not found".toList.isPrefixOf s

/-- The JS LineTerminator set, which the dot of a regex without the `s`
flag never matches: LF, CR, LINE SEPARATOR (U+2028) and PARAGRAPH
SEPARATOR (U+2029). -/
def isJsLineTerm (c : Char) : Bool :=
  c = '\n' || c = '\r' || c = '\u2028' || c = '\u2029'

/-- Scan for a decommission keyword reachable without crossing a line
terminator (the `.*` of the source regex matches no LineTerminator). -/
def findKw : List Char → Bool
  | [] => false
  | c :: r => kwAt (c :: r) || (!isJsLineTerm c && findKw r)

/-- Scan for `model` followed (same line) by a decommission keyword: the
body of the source regex `model.*(decommissioned|not found)`. -/
def findModelThenKw : List Char → Bool
  | [] => false
  | c :: r =>
    ("model".toList.isPrefixOf (c :: r) && findKw ((c :: r).drop 5))
      || findModelThenKw r

/-- ASCII lowercasing of one character (the case folding the source regex
flag `i` performs on the pattern's ASCII letters). -/
def lcChar (c : Char) : Char :=
  if 65 ≤ c.toNat ∧ c.toNat ≤ 90 then Char.ofNat (c.toNat + 32) else c

/-- ASCII lowercasing of a character list. -/
def lowerChars (s : List Char) : List Char := s.map lcChar

/-- Case-insensitive match of the decommission body pattern: the embedded
form of `/model.*(decommissioned|not found)/i.test(body)`. -/
def decommBodyMatch (body : String) : Bool :=
  findModelThenKw (lowerChars body.toList)

/-- Classification of an upstream failure as a decommissioned model
(source `isDecommissionedHttp`, lines 438–442): status 404, or status 400
with a body matching the decommission pattern. -/
def isDecommissionedHttp (status : Nat) (body : String) : Bool :=
  if status = 404 then true
  else if status = 400 && decommBodyMatch body then true
  else false

/-- Declarative reading of the alternation: the keyword list is exactly
`decommissioned` or `not found`. -/
def decommKeyword (kw : List Char) : Prop :=
  kw = "decommissioned".toList ∨ kw = "not found".toList

/-- Declarative reading of the source regex on an already-lowercased
character list: somewhere the text `model` occurs, followed — with no
line terminator in between — by `decommissioned` or `not found`. -/
def regexDecommSpec (s : List Char) : Prop :=
  ∃ l₁ l₂ kw l₃, decommKeyword kw ∧ (∀ c ∈ l₂, isJsLineTerm c = false) ∧
    s = l₁ ++ "model".toList ++ l₂ ++ kw ++ l₃

/-- One OpenAI-style chat message as the gateway sees it: dynamic `role`
and `content` fields. -/
structure ChatMsg where
  role : JSVal
  content : JSVal
deriving DecidableEq

/-- One Gemini turn: a role string (`user` or `model`) and the `parts`
array, each part being its `text` payload. -/
structure GemTurn where
  role : String
  parts : List String
deriving DecidableEq

/-- The `generationConfig` object: fields present only for numeric
`temperature` / `max_tokens` inputs. -/
structure GenConfig where
  temperature : Option Int
  maxOutputTokens : Option Int
deriving DecidableEq

/-- The Gemini request body produced by translation. -/
structure GemBody where
  contents : List GemTurn
  generationConfig : GenConfig
deriving DecidableEq

/-- The parsed JSON body of a POST /v1/chat request, with the fields the
final variant reads (plus `enable_fallback`, present in the wire format
but never read by the final variant).  `messages` is `none` when the
field is not an array; `model` is `none` when absent. -/
structure ReqBody where
  provider : JSVal
  preset : JSVal
  model : Option String
  messages : Option (List ChatMsg)
  temperature : JSVal
  max_tokens : JSVal
  enable_fallback : JSVal
deriving DecidableEq

/-- The system-prefix accumulation step of the translator:
`acc += (acc ? '\n' : '') + s`. -/
def sysJoin (acc s : String) : String :=
  acc ++ (if acc = "" then "" else "\n") ++ s

/-- The message walk of `openAIToGeminiBody` (source lines 450–464),
carrying the pending system prefix: messages with falsy role or content
are skipped; system contents accumulate into the prefix; other roles map
assistant to a `model` turn and everything else to a `user` turn, the
pending prefix being injected once, blank-line separated, into the first
user turn; a leftover prefix becomes a trailing standalone user turn. -/
def geminiWalk : List ChatMsg → String → List GemTurn
  | [], acc => if acc = "" then [] else [⟨"user", [acc]⟩]
  | m :: rest, acc =>
    if jsTruthy m.role = false ∨ jsTruthy m.content = false then
      geminiWalk rest acc
    else if m.role = JSVal.str "system" then
      geminiWalk rest (sysJoin acc (jsToString m.content))
    else
      let role := if m.role = JSVal.str "assistant" then "model" else "user"
      let content := jsToString m.content
      if acc ≠ "" ∧ role = "user" then
        ⟨role, [acc ++ "\n\n" ++ content]⟩ :: geminiWalk rest ""
      else
        ⟨role, [content]⟩ :: geminiWalk rest acc

/-- The `contents` array produced for a message list. -/
def geminiContents (msgs : List ChatMsg) : List GemTurn :=
  geminiWalk msgs ""

/-- `typeof v === 'number'` projection used for `generationConfig`. -/
def numField : JSVal → Option Int
  | JSVal.num n => some n
  | _ => none

/-- The full translation `openAIToGeminiBody` (source lines 445–471):
non-array `messages` degrade to the empty list; `temperature` and
`max_tokens` are copied only when numeric. -/
def openAIToGeminiBody (b : ReqBody) : GemBody :=
  ⟨geminiContents (b.messages.getD []),
   ⟨numField b.temperature, numField b.max_tokens⟩⟩

/-- Newline join of a list of strings, as the accumulated system prefix
reads for a block of system messages. -/
def joinNL : List String → String
  | [] => ""
  | [s] => s
  | s :: rest => s ++ "\n" ++ joinNL rest

/-- A system message with the given text. -/
def sysMsg (s : String) : ChatMsg := ⟨JSVal.str "system", JSVal.str s⟩

/-- A user message with the given text. -/
def usrMsg (s : String) : ChatMsg := ⟨JSVal.str "user", JSVal.str s⟩

/-- The speed/quality preset selector. -/
inductive Preset where
  | speed
  | quality
deriving DecidableEq

/-- Preset coercion of the handler (source line 645): exactly the string
`quality` selects quality, everything else speeds. -/
def coercePreset (v : JSVal) : Preset :=
  if v = JSVal.str "quality" then Preset.quality else Preset.speed

/-- Static Groq speed priority list (source lines 400–405). -/
def GROQ_SPEED_PRIORITY : List String :=
  ["llama-3.1-8b-instant", "llama-3.2-11b-vision",
   "llama-3.2-3b-instruct", "llama-3.3-70b-versatile"]

/-- Static Groq quality priority list (source lines 406–410). -/
def GROQ_QUALITY_PRIORITY : List String :=
  ["llama-3.3-70b-versatile", "llama-3.1-70b-versatile",
   "llama-3.1-8b-instant"]

/-- Static Gemini speed priority list (source lines 412–417). -/
def GEMINI_SPEED_PRIORITY : List String :=
  ["gemini-2.5-flash-lite", "gemini-2.5-flash",
   "gemini-2.0-flash", "gemini-2.5-pro"]

/-- Static Gemini quality priority list (source lines 418–422). -/
def GEMINI_QUALITY_PRIORITY : List String :=
  ["gemini-2.5-pro", "gemini-2.0-pro", "gemini-2.5-flash"]

/-- The JS `available[0] || dflt` read: the default replaces both a
missing first entry and an empty-string first entry (JS falsiness). -/
def jsHeadOr (avail : List String) (dflt : String) : String :=
  match avail with
  | [] => dflt
  | a :: _ => if a = "" then dflt else a

/-- First priority entry present in the live catalog (source
`pickFirstAvailable`, lines 497–500). -/
def pickFirstAvailable (priority available : List String) : Option String :=
  priority.find? (fun p => available.contains p)

/-- Groq model resolution over an already-fetched catalog (source
`resolveGroqModel`, lines 503–508).  A truthy requested id present in the
catalog wins; otherwise the preset priority list; otherwise
`available[0] || 'llama-3.1-8b-instant'` with JS falsiness on the first
entry. -/
def resolveGroqModel (available : List String) (requested : Option String)
    (preset : Preset) : String :=
  let hit := match requested with
    | some r => r ≠ "" && available.contains r
    | none => false
  if hit then requested.getD "" else
    let priority := if preset = Preset.quality then GROQ_QUALITY_PRIORITY
      else GROQ_SPEED_PRIORITY
    match pickFirstAvailable priority available with
    | some m => m
    | none => jsHeadOr available "llama-3.1-8b-instant"

/-- Gemini model resolution over an already-fetched catalog (source
`resolveGeminiModel`, lines 510–515). -/
def resolveGeminiModel (available : List String) (requested : Option String)
    (preset : Preset) : String :=
  let hit := match requested with
    | some r => r ≠ "" && available.contains r
    | none => false
  if hit then requested.getD "" else
    let priority := if preset = Preset.quality then GEMINI_QUALITY_PRIORITY
      else GEMINI_SPEED_PRIORITY
    match pickFirstAvailable priority available with
    | some m => m
    | none => jsHeadOr available "gemini-2.5-flash"

/-- The caller-facing response envelope (source `toOpenAIResponse`). -/
structure OpenAIMsg where
  content : String
deriving DecidableEq

/-- One choice of the response envelope. -/
structure OpenAIChoice where
  message : OpenAIMsg
deriving DecidableEq

/-- The normalized `{choices:[{message:{content}}]}` envelope. -/
structure OpenAIResp where
  choices : List OpenAIChoice
deriving DecidableEq

/-- Source `toOpenAIResponse` (lines 434–436). -/
def toOpenAIResponse (text : String) : OpenAIResp :=
  ⟨[⟨⟨text⟩⟩]⟩

/-- One upstream Groq chat-completions exchange: HTTP success flag and
status, failure body text, JSON-parse success, and the value found at
`choices[0].message.content` (`undef` when the path is absent). -/
structure GroqResp where
  ok : Bool
  status : Nat
  text : String
  jsonOk : Bool
  content : JSVal
deriving DecidableEq

/-- The Groq side of the environment: credential presence, the catalog
returned by the i-th model listing (network or parse failures already
degraded to the empty list inside `listGroqModels`), and the response of
the i-th chat attempt for a given model id. -/
structure GroqEnv where
  hasKey : Bool
  catalog : Nat → List String
  chat : Nat → String → GroqResp

/-- JSON-parse and answer extraction of a Groq response (source lines
561–567): a parse failure is `groq_json`; a falsy or non-string
`choices[0].message.content` is `groq_empty`; otherwise the raw string is
wrapped unchanged (no trimming in the final variant). -/
def groqFinish (r : GroqResp) : Except String OpenAIResp :=
  if r.jsonOk = false then Except.error "groq_json"
  else if jsTruthy r.content = false ∨ isStrV r.content = false then
    Except.error "groq_empty"
  else Except.ok (toOpenAIResponse (jsToString r.content))

/-- Source `callGroq` (lines 517–568) with an attempt log: resolve a
model, call upstream; on a non-success status classified as
decommissioned, re-resolve with the requested model cleared and retry
once, a retry failure being terminal; any other non-success status is
terminal.  The log records `(attemptIndex, modelId)` for each upstream
chat call. -/
def callGroq (env : GroqEnv) (reqModel : Option String) (preset : Preset) :
    Except String OpenAIResp × List (Nat × String) :=
  if env.hasKey = false then (Except.error "groq_key_missing", [])
  else
    let model := resolveGroqModel (env.catalog 0) reqModel preset
    let r := env.chat 0 model
    if r.ok = false then
      if isDecommissionedHttp r.status r.text then
        let model2 := resolveGroqModel (env.catalog 1) none preset
        let r2 := env.chat 1 model2
        if r2.ok = false then
          (Except.error ("groq_http_" ++ natStr r2.status ++ ":" ++ r2.text),
           [(0, model), (1, model2)])
        else (groqFinish r2, [(0, model), (1, model2)])
      else
        (Except.error ("groq_http_" ++ natStr r.status ++ ":" ++ r.text),
         [(0, model)])
    else (groqFinish r, [(0, model)])

/-- One Gemini content part: its `text` field (`undef` when absent or the
part itself is nullish, so that `p?.text ?? ''` reads the empty string). -/
structure GemPart where
  text : JSVal
deriving DecidableEq

/-- One upstream Gemini exchange: HTTP success flag and status, failure
body text, JSON-parse success, and `candidates[0].content.parts`
(`none` when the path is absent or not an array). -/
structure GemResp where
  ok : Bool
  status : Nat
  text : String
  jsonOk : Bool
  parts : Option (List GemPart)
deriving DecidableEq

/-- The Gemini side of the environment: credential presence, per-listing
catalog, and the response of the i-th chat attempt given the model id and
the translated request body. -/
structure GemEnv where
  hasKey : Bool
  catalog : Nat → List String
  chat : Nat → String → GemBody → GemResp

/-- The `p?.text ?? ''` read of one part. -/
def gemPartVal (p : GemPart) : JSVal :=
  if p.text = JSVal.undef ∨ p.text = JSVal.jsNull then JSVal.str "" else p.text

/-- The mapped-and-filtered part texts: `parts.map(p => p?.text ?? '').filter(Boolean)`
followed by the string conversion `join` performs on each element. -/
def geminiPartStrings (ps : List GemPart) : List String :=
  ((ps.map gemPartVal).filter (fun v => jsTruthy v)).map jsToString

/-- Gemini answer extraction (source lines 606–608): map each part to its
text, drop falsy entries, join with newlines, trim; a non-array `parts`
reads as the empty string. -/
def geminiExtractText (parts : Option (List GemPart)) : String :=
  match parts with
  | none => ""
  | some ps => jsTrim (String.intercalate "\n" (geminiPartStrings ps))

/-- JSON-parse and answer extraction of a Gemini response (source lines
602–610): a parse failure is `gemini_json`; an extracted text that is
empty after the join-and-trim is `gemini_empty`. -/
def gemFinish (r : GemResp) : Except String OpenAIResp :=
  if r.jsonOk = false then Except.error "gemini_json"
  else
    let txt := geminiExtractText r.parts
    if txt = "" then Except.error "gemini_empty"
    else Except.ok (toOpenAIResponse txt)

/-- Source `callGemini` (lines 570–611) with an attempt log, mirroring
`callGroq`: the translated body is computed once and reused by the
retry. -/
def callGemini (env : GemEnv) (b : ReqBody) (preset : Preset) :
    Except String OpenAIResp × List (Nat × String) :=
  if env.hasKey = false then (Except.error "gemini_key_missing", [])
  else
    let gemBody := openAIToGeminiBody b
    let model := resolveGeminiModel (env.catalog 0) b.model preset
    let r := env.chat 0 model gemBody
    if r.ok = false then
      if isDecommissionedHttp r.status r.text then
        let model2 := resolveGeminiModel (env.catalog 1) none preset
        let r2 := env.chat 1 model2 gemBody
        if r2.ok = false then
          (Except.error ("gemini_http_" ++ natStr r2.status ++ ":" ++ r2.text),
           [(0, model), (1, model2)])
        else (gemFinish r2, [(0, model), (1, model2)])
      else
        (Except.error ("gemini_http_" ++ natStr r.status ++ ":" ++ r.text),
         [(0, model)])
    else (gemFinish r, [(0, model)])

/-- The `body?.provider ?? 'auto'` read: null or undefined default to the
string `auto`. -/
def providerChoice (v : JSVal) : JSVal :=
  if v = JSVal.undef ∨ v = JSVal.jsNull then JSVal.str "auto" else v

instance {ε α : Type} [DecidableEq ε] [DecidableEq α] :
    DecidableEq (Except ε α) := fun x y =>
  match x, y with
  | Except.ok a, Except.ok b =>
    if h : a = b then isTrue (by rw [h])
    else isFalse (by intro hh; cases hh; exact h rfl)
  | Except.error a, Except.error b =>
    if h : a = b then isTrue (by rw [h])
    else isFalse (by intro hh; cases hh; exact h rfl)
  | Except.ok _, Except.error _ => isFalse (by intro hh; cases hh)
  | Except.error _, Except.ok _ => isFalse (by intro hh; cases hh)

/-- Observable outcome of one POST /v1/chat request: HTTP status, either
the normalized envelope or the error tag string, the bucket value written
by the rate limiter, and the upstream attempt logs of each provider. -/
structure HandlerRes where
  status : Nat
  body : Except String OpenAIResp
  kvAfter : Option String
  groqLog : List (Nat × String)
  gemLog : List (Nat × String)
deriving DecidableEq

/-- The POST /v1/chat handler of the final variant (source lines
634–681): rate limit first (429 on rejection, before the body is
parsed); a body-parse failure (`parsed = none`) is caught as a 500
`server_error`; explicit provider selection surfaces that provider's
failure as 502; the auto branch calls Groq and, on any failure, calls
Gemini exactly when its credential is configured (the final variant
reads no `enable_fallback` field), with a fallback failure surfaced as
500 and a missing Gemini credential as 502. -/
def postChat (kv : Option String) (parsed : Option ReqBody)
    (genv : GroqEnv) (gmenv : GemEnv) : HandlerRes :=
  let rl := rateLimitCall kv
  if rl.2 = false then ⟨429, Except.error "rate_limited", rl.1, [], []⟩
  else
    match parsed with
    | none => ⟨500, Except.error "server_error", rl.1, [], []⟩
    | some b =>
      let provider := providerChoice b.provider
      let preset := coercePreset b.preset
      if provider = JSVal.str "groq" then
        match callGroq genv b.model preset with
        | (Except.ok out, log) => ⟨200, Except.ok out, rl.1, log, []⟩
        | (Except.error e, log) =>
          ⟨502, Except.error ("groq_failed:" ++ e), rl.1, log, []⟩
      else if provider = JSVal.str "gemini" then
        match callGemini gmenv b preset with
        | (Except.ok out, log) => ⟨200, Except.ok out, rl.1, [], log⟩
        | (Except.error e, log) =>
          ⟨502, Except.error ("gemini_failed:" ++ e), rl.1, [], log⟩
      else
        match callGroq genv b.model preset with
        | (Except.ok out, log) => ⟨200, Except.ok out, rl.1, log, []⟩
        | (Except.error e1, glog) =>
          if gmenv.hasKey then
            match callGemini gmenv b preset with
            | (Except.ok out, mlog) => ⟨200, Except.ok out, rl.1, glog, mlog⟩
            | (Except.error e2, mlog) =>
              ⟨500, Except.error ("fallback_failed:" ++ e2), rl.1, glog, mlog⟩
          else
            ⟨502, Except.error ("groq_failed_no_fallback:" ++ e1), rl.1, glog, []⟩

/-- A block of system messages. -/
def sysMsgs (ss : List String) : List ChatMsg := ss.map sysMsg

/-- The model the first Groq attempt resolves (explicit request honoured
against the first catalog fetch). -/
def groqModel0 (env : GroqEnv) (req : Option String) (p : Preset) : String :=
  resolveGroqModel (env.catalog 0) req p

/-- The model the Groq retry resolves (requested model cleared, second
catalog fetch). -/
def groqModel1 (env : GroqEnv) (p : Preset) : String :=
  resolveGroqModel (env.catalog 1) none p

/-- The first Groq attempt's upstream response. -/
def groqResp0 (env : GroqEnv) (req : Option String) (p : Preset) : GroqResp :=
  env.chat 0 (groqModel0 env req p)

/-- The Groq retry's upstream response. -/
def groqResp1 (env : GroqEnv) (p : Preset) : GroqResp :=
  env.chat 1 (groqModel1 env p)

/-- The model the first Gemini attempt resolves. -/
def gemModel0 (env : GemEnv) (b : ReqBody) (p : Preset) : String :=
  resolveGeminiModel (env.catalog 0) b.model p

/-- The model the Gemini retry resolves (requested model cleared). -/
def gemModel1 (env : GemEnv) (p : Preset) : String :=
  resolveGeminiModel (env.catalog 1) none p

/-- The first Gemini attempt's upstream response. -/
def gemResp0 (env : GemEnv) (b : ReqBody) (p : Preset) : GemResp :=
  env.chat 0 (gemModel0 env b p) (openAIToGeminiBody b)

/-- The Gemini retry's upstream response. -/
def gemResp1 (env : GemEnv) (b : ReqBody) (p : Preset) : GemResp :=
  env.chat 1 (gemModel1 env p) (openAIToGeminiBody b)

/-- The requested model misses when it is absent, the empty string, or not
in the catalog (the situations in which the source falls through to the
priority list). -/
def requestedMiss (avail : List String) : Option String → Prop
  | none => True
  | some r => r = "" ∨ r ∉ avail

/-- Concrete Groq environment whose first attempt returns 404 and whose
retry fails with 500: exercises the decommission-retry-then-terminal path. -/
def c2groqEnv : GroqEnv :=
  ⟨true, fun _ => ["llama-3.1-8b-instant"],
   fun i _ => if i = 0 then ⟨false, 404, "", true, JSVal.undef⟩
     else ⟨false, 500, "boom", true, JSVal.undef⟩⟩

/-- Concrete Groq environment: catalog holds exactly the id heading the
speed priority list, the first attempt 404s and the retry succeeds. -/
def c7groqEnv : GroqEnv :=
  ⟨true, fun _ => ["llama-3.1-8b-instant"],
   fun i _ => if i = 0 then ⟨false, 404, "", true, JSVal.undef⟩
     else ⟨true, 200, "", true, JSVal.str "hi"⟩⟩

/-- Concrete Groq environment whose call succeeds with a whitespace-only
answer string. -/
def c6groqEnv : GroqEnv :=
  ⟨true, fun _ => [], fun _ _ => ⟨true, 200, "", true, JSVal.str " "⟩⟩

/-- Concrete Gemini environment that succeeds with the answer text gem. -/
def c1gemEnv : GemEnv :=
  ⟨true, fun _ => [],
   fun _ _ _ => ⟨true, 200, "", true, some [⟨JSVal.str "gem"⟩]⟩⟩

/-- Concrete Groq environment with no credential configured (provider A
fails before any network call). -/
def noKeyGroqEnv : GroqEnv :=
  ⟨false, fun _ => [], fun _ _ => ⟨false, 500, "", true, JSVal.undef⟩⟩

/-- Concrete Gemini environment with no credential configured. -/
def noKeyGemEnv : GemEnv :=
  ⟨false, fun _ => [], fun _ _ _ => ⟨false, 500, "", true, none⟩⟩

/-- Request body with fallback explicitly disabled and everything else
defaulted (the C1 counterexample request). -/
def efFalseBody : ReqBody :=
  ⟨JSVal.undef, JSVal.undef, none, none, JSVal.undef, JSVal.undef,
   JSVal.boolV false⟩

/-- Body selecting the explicit Groq provider with the explicit model id
that heads the speed priority list (the C7 scenario request). -/
def c7body : ReqBody :=
  ⟨JSVal.str "groq", JSVal.undef, some "llama-3.1-8b-instant", none,
   JSVal.undef, JSVal.undef, JSVal.undef⟩

theorem digitCh_val : ∀ d < 10, digitVal (digitCh d) = d := by decide

theorem digitCh_isDigit : ∀ d < 10, isDigitCh (digitCh d) = true := by decide

theorem natCharsAux_all_digits :
    ∀ fuel n, n < fuel → ∀ c ∈ natCharsAux fuel n, isDigitCh c = true := by
  intro fuel
  induction fuel with
  | zero => intro n hn; omega
  | succ f ih =>
    intro n hn c hc
    by_cases h10 : n < 10
    · simp only [natCharsAux, if_pos h10, List.mem_singleton] at hc
      subst hc
      exact digitCh_isDigit n h10
    · simp only [natCharsAux, if_neg h10, List.mem_append,
        List.mem_singleton] at hc
      rcases hc with hc | hc
      · exact ih (n / 10) (by omega) c hc
      · subst hc
        exact digitCh_isDigit (n % 10) (Nat.mod_lt n (by omega))

theorem digitsToNat_append_digit (l : List Char) (c : Char) :
    digitsToNat (l ++ [c]) = 10 * digitsToNat l + digitVal c := by
  simp only [digitsToNat, List.foldl_append, List.foldl_cons, List.foldl_nil]
  ring

theorem natCharsAux_val :
    ∀ fuel n, n < fuel → digitsToNat (natCharsAux fuel n) = n := by
  intro fuel
  induction fuel with
  | zero => intro n hn; omega
  | succ f ih =>
    intro n hn
    by_cases h10 : n < 10
    · simp only [natCharsAux, if_pos h10, digitsToNat, List.foldl_cons,
        List.foldl_nil]
      have := digitCh_val n h10
      simp only [digitVal] at this ⊢
      omega
    · have hdiv : n / 10 < f := by
        have hlt : n / 10 < n := Nat.div_lt_self (by omega) (by omega)
        omega
      simp only [natCharsAux, if_neg h10, digitsToNat_append_digit,
        ih (n / 10) hdiv]
      have := digitCh_val (n % 10) (Nat.mod_lt n (by omega))
      have hdm := Nat.div_add_mod n 10
      omega

theorem natChars_all_digits (n : Nat) : ∀ c ∈ natChars n, isDigitCh c = true :=
  natCharsAux_all_digits (n + 1) n (Nat.lt_succ_self n)

theorem digitsToNat_natChars (n : Nat) : digitsToNat (natChars n) = n :=
  natCharsAux_val (n + 1) n (Nat.lt_succ_self n)

theorem natChars_ne_nil (n : Nat) : natChars n ≠ [] := by
  unfold natChars natCharsAux
  by_cases h10 : n < 10
  · simp [h10]
  · simp [h10]

theorem isDigitCh_not_ws {c : Char} (h : isDigitCh c = true) :
    isJsWs c = false := by
  simp only [isDigitCh, Bool.and_eq_true, decide_eq_true_eq] at h
  simp only [isJsWs, Bool.or_eq_false_iff, decide_eq_false_iff_not]
  refine ⟨⟨⟨⟨⟨?_, ?_⟩, ?_⟩, ?_⟩, ?_⟩, ?_⟩ <;>
    (intro hc; subst hc; revert h; decide)

theorem isDigitCh_not_minus {c : Char} (h : isDigitCh c = true) :
    c ≠ '-' := by
  intro hc; subst hc; revert h; decide

theorem isDigitCh_not_plus {c : Char} (h : isDigitCh c = true) :
    c ≠ '+' := by
  intro hc; subst hc; revert h; decide

theorem takeDigits_of_all (l : List Char) (h : ∀ c ∈ l, isDigitCh c = true) :
    takeDigits l = l := by
  induction l with
  | nil => rfl
  | cons c r ih =>
    have hc := h c (List.mem_cons_self c r)
    simp only [takeDigits, hc, if_pos]
    exact congrArg (c :: ·) (ih (fun d hd => h d (List.mem_cons_of_mem c hd)))

theorem jsParseInt10_natStr (n : Nat) : jsParseInt10 (natStr n) = some (n : Int) := by
  have htl : (natStr n).toList = natChars n := rfl
  obtain ⟨c, rest, hcr⟩ := List.exists_cons_of_ne_nil (natChars_ne_nil n)
  have hdigits := natChars_all_digits n
  have hc : isDigitCh c = true := hdigits c (by rw [hcr]; exact List.mem_cons_self c rest)
  have hall : takeDigits (natChars n) = natChars n := takeDigits_of_all _ hdigits
  have hdrop : (natChars n).dropWhile isJsWs = natChars n := by
    rw [hcr, List.dropWhile_cons, isDigitCh_not_ws hc]
    simp
  unfold jsParseInt10
  rw [htl, hdrop, hcr]
  simp only [parseSigned]
  rw [if_neg (by exact isDigitCh_not_minus hc),
      if_neg (by exact isDigitCh_not_plus hc)]
  rw [← hcr]
  unfold parseDigits
  rw [hall, if_neg (by rw [hcr]; exact List.cons_ne_nil c rest),
      digitsToNat_natChars]
  rfl

theorem rateLimitCall_natStr (n : Nat) :
    rateLimitCall (some (natStr n)) =
      (some (natStr (n + 1)), decide (n + 1 ≤ 60)) := by
  unfold rateLimitCall
  simp only [Option.getD_some, jsParseInt10_natStr, Option.map_some']
  have h1 : jsNumStr (some ((n : Int) + 1)) = natStr (n + 1) := by
    simp only [jsNumStr]
    rw [if_neg (by omega), show ((n : Int) + 1).natAbs = n + 1 by omega]
  have h2 : decide (((n : Int) + 1) ≤ 60) = decide (n + 1 ≤ 60) := by
    by_cases h : n + 1 ≤ 60
    · rw [decide_eq_true (show ((n : Int) + 1) ≤ 60 by exact_mod_cast h),
          decide_eq_true h]
    · rw [decide_eq_false (show ¬ ((n : Int) + 1) ≤ 60 by exact_mod_cast h),
          decide_eq_false h]
  rw [h1, h2]

theorem rlState_eq (k : Nat) : rlState (k + 1) = some (natStr (k + 1)) := by
  induction k with
  | zero =>
    show (rateLimitCall none).1 = some (natStr 1)
    decide
  | succ m ih =>
    show (rateLimitCall (rlState (m + 1))).1 = some (natStr (m + 2))
    rw [ih, rateLimitCall_natStr]

theorem rateLimitVerdict (k : Nat) :
    (rateLimitCall (rlState k)).2 = decide (k + 1 ≤ 60) := by
  cases k with
  | zero => decide
  | succ m =>
    rw [rlState_eq, rateLimitCall_natStr]

theorem kwAt_iff (s : List Char) :
    kwAt s = true ↔ ∃ kw t, decommKeyword kw ∧ s = kw ++ t := by
  simp only [kwAt, Bool.or_eq_true, List.isPrefixOf_iff_prefix]
  constructor
  · rintro (⟨t, ht⟩ | ⟨t, ht⟩)
    · exact ⟨_, t, Or.inl rfl, ht.symm⟩
    · exact ⟨_, t, Or.inr rfl, ht.symm⟩
  · rintro ⟨kw, t, hkw | hkw, hs⟩ <;> subst hkw
    · exact Or.inl ⟨t, hs.symm⟩
    · exact Or.inr ⟨t, hs.symm⟩

theorem decommKeyword_ne_nil {kw : List Char} (h : decommKeyword kw) :
    kw ≠ [] := by
  rcases h with h | h <;> subst h <;> decide

theorem findKw_iff (s : List Char) :
    findKw s = true ↔
      ∃ l₂ kw l₃, decommKeyword kw ∧ (∀ c ∈ l₂, isJsLineTerm c = false) ∧
        s = l₂ ++ kw ++ l₃ := by
  induction s with
  | nil =>
    refine ⟨fun h => absurd h (by decide), ?_⟩
    rintro ⟨l₂, kw, l₃, hkw, _, hs⟩
    rcases List.append_eq_nil.mp ((List.append_assoc l₂ kw l₃) ▸ hs.symm)
      with ⟨_, h2⟩
    rcases List.append_eq_nil.mp h2 with ⟨hk, _⟩
    exact (decommKeyword_ne_nil hkw hk).elim
  | cons c r ih =>
    simp only [findKw, Bool.or_eq_true, Bool.and_eq_true, Bool.not_eq_true']
    constructor
    · rintro (h | ⟨hnl, h⟩)
      · obtain ⟨kw, t, hkw, hs⟩ := (kwAt_iff (c :: r)).mp h
        exact ⟨[], kw, t, hkw, by simp, by simpa using hs⟩
      · obtain ⟨l₂, kw, l₃, hkw, hl2, hs⟩ := ih.mp h
        refine ⟨c :: l₂, kw, l₃, hkw, ?_, by simp [hs]⟩
        intro d hd
        rcases List.mem_cons.mp hd with h' | h'
        · rw [h']; exact hnl
        · exact hl2 d h'
    · rintro ⟨l₂, kw, l₃, hkw, hl2, hs⟩
      cases l₂ with
      | nil =>
        left
        exact (kwAt_iff (c :: r)).mpr ⟨kw, l₃, hkw, by simpa using hs⟩
      | cons d l₂ =>
        have hcd : c = d ∧ r = l₂ ++ kw ++ l₃ := by simpa using hs
        right
        refine ⟨?_, ih.mpr ⟨l₂, kw, l₃, hkw,
          fun e he => hl2 e (List.mem_cons_of_mem d he), hcd.2⟩⟩
        rw [hcd.1]
        exact hl2 d (List.mem_cons_self _ _)

theorem model_drop_five (t : List Char) :
    ("model".toList ++ t).drop 5 = t := by
  have hlen : ("model".toList).length = 5 := rfl
  rw [← hlen]
  exact List.drop_left _ _

theorem findModelThenKw_iff (s : List Char) :
    findModelThenKw s = true ↔ regexDecommSpec s := by
  induction s with
  | nil =>
    refine ⟨fun h => absurd h (by decide), ?_⟩
    rintro ⟨l₁, l₂, kw, l₃, hkw, _, hs⟩
    have : l₁ = [] ∧ "model".toList ++ (l₂ ++ (kw ++ l₃)) = [] := by
      apply List.append_eq_nil.mp
      simpa [List.append_assoc] using hs.symm
    rcases this with ⟨_, h2⟩
    exact absurd (List.append_eq_nil.mp h2).1 (by decide)
  | cons c r ih =>
    simp only [findModelThenKw, Bool.or_eq_true, Bool.and_eq_true]
    constructor
    · rintro (⟨hpre, hkw5⟩ | h)
      · obtain ⟨t, ht⟩ := List.isPrefixOf_iff_prefix.mp hpre
        have hdrop : (c :: r).drop 5 = t := by
          rw [← ht]; exact model_drop_five t
        obtain ⟨l₂, kw, l₃, hk, hnl, hteq⟩ := (findKw_iff _).mp (hdrop ▸ hkw5)
        refine ⟨[], l₂, kw, l₃, hk, hnl, ?_⟩
        simp only [List.nil_append]
        rw [← ht, hteq]
        simp [List.append_assoc]
      · obtain ⟨l₁, l₂, kw, l₃, hk, hnl, hr⟩ := ih.mp h
        exact ⟨c :: l₁, l₂, kw, l₃, hk, hnl, by simp [hr]⟩
    · rintro ⟨l₁, l₂, kw, l₃, hk, hnl, hs⟩
      cases l₁ with
      | nil =>
        left
        simp only [List.nil_append] at hs
        constructor
        · exact List.isPrefixOf_iff_prefix.mpr ⟨l₂ ++ kw ++ l₃, by
            rw [hs]; simp [List.append_assoc]⟩
        · have hdrop : (c :: r).drop 5 = l₂ ++ kw ++ l₃ := by
            rw [hs, List.append_assoc, List.append_assoc]
            rw [show l₂ ++ (kw ++ l₃) = l₂ ++ kw ++ l₃ by simp [List.append_assoc]]
            exact model_drop_five _
          rw [hdrop]
          exact (findKw_iff _).mpr ⟨l₂, kw, l₃, hk, hnl, rfl⟩
      | cons d l₁ =>
        rcases (by simpa using hs : c = d ∧ r = l₁ ++ ("model".toList ++ (l₂ ++ (kw ++ l₃))))
          with ⟨_, hr⟩
        right
        exact ih.mpr ⟨l₁, l₂, kw, l₃, hk, hnl, by simpa [List.append_assoc] using hr⟩

theorem str_append_ne_left {a : String} (b : String) (h : a ≠ "") :
    a ++ b ≠ "" := by
  intro heq
  apply h
  have hd : (a ++ b).data = a.data ++ b.data := rfl
  rw [heq] at hd
  rcases List.append_eq_nil.mp hd.symm with ⟨ha, _⟩
  cases a
  simp_all

theorem sysJoin_ne {acc : String} (s : String) (hacc : acc ≠ "") :
    sysJoin acc s ≠ "" := by
  unfold sysJoin
  rw [if_neg hacc]
  exact str_append_ne_left s (str_append_ne_left "\n" hacc)

theorem joinNL_ne_empty :
    ∀ ss : List String, ss ≠ [] → (∀ s ∈ ss, s ≠ "") → joinNL ss ≠ "" := by
  intro ss
  induction ss with
  | nil => intro h; exact absurd rfl h
  | cons s rest _ =>
    intro _ hall
    cases rest with
    | nil => exact hall s (List.mem_cons_self s [])
    | cons s' r =>
      show s ++ "\n" ++ joinNL (s' :: r) ≠ ""
      exact str_append_ne_left _
        (str_append_ne_left _ (hall s (List.mem_cons_self _ _)))

theorem geminiWalk_skip (m : ChatMsg) (rest : List ChatMsg) (acc : String)
    (h : jsTruthy m.role = false ∨ jsTruthy m.content = false) :
    geminiWalk (m :: rest) acc = geminiWalk rest acc := by
  rcases h with h | h <;> simp [geminiWalk, h]

theorem geminiWalk_sys (s : String) (rest : List ChatMsg) (acc : String)
    (hs : s ≠ "") :
    geminiWalk (sysMsg s :: rest) acc = geminiWalk rest (sysJoin acc s) := by
  have h2 : jsTruthy (JSVal.str s) = true := by simp [jsTruthy, hs]
  simp [geminiWalk, sysMsg, jsToString, h2]
  intro h
  exact absurd h (by decide)

theorem geminiWalk_user_inject (u : String) (rest : List ChatMsg)
    (acc : String) (hu : u ≠ "") (hacc : acc ≠ "") :
    geminiWalk (usrMsg u :: rest) acc =
      ⟨"user", [acc ++ "\n\n" ++ u]⟩ :: geminiWalk rest "" := by
  have h2 : jsTruthy (JSVal.str u) = true := by simp [jsTruthy, hu]
  simp [geminiWalk, usrMsg, jsToString, h2, hacc]
  intro h
  exact absurd h (by decide)

theorem geminiWalk_sysBlock :
    ∀ ss : List String, ∀ rest acc, (∀ s ∈ ss, s ≠ "") →
      geminiWalk (sysMsgs ss ++ rest) acc =
        geminiWalk rest (List.foldl sysJoin acc ss) := by
  intro ss
  induction ss with
  | nil => intro rest acc _; rfl
  | cons s tl ih =>
    intro rest acc hall
    have hs : s ≠ "" := hall s (List.mem_cons_self _ _)
    show geminiWalk (sysMsg s :: (sysMsgs tl ++ rest)) acc = _
    rw [geminiWalk_sys s _ acc hs]
    rw [ih rest _ (fun d hd => hall d (List.mem_cons_of_mem s hd))]
    rfl

theorem foldl_sysJoin_ne :
    ∀ ss : List String, ∀ acc, ss ≠ [] → acc ≠ "" →
      List.foldl sysJoin acc ss = acc ++ "\n" ++ joinNL ss := by
  intro ss
  induction ss with
  | nil => intro acc h; exact absurd rfl h
  | cons s tl ih =>
    intro acc _ hacc
    cases tl with
    | nil =>
      show sysJoin acc s = acc ++ "\n" ++ joinNL [s]
      unfold sysJoin joinNL
      rw [if_neg hacc]
    | cons s' r =>
      show List.foldl sysJoin (sysJoin acc s) (s' :: r) = _
      rw [ih (sysJoin acc s) (List.cons_ne_nil s' r) (sysJoin_ne s hacc)]
      show sysJoin acc s ++ "\n" ++ joinNL (s' :: r) =
        acc ++ "\n" ++ (s ++ "\n" ++ joinNL (s' :: r))
      unfold sysJoin
      rw [if_neg hacc]
      simp [String.append_assoc]

theorem foldl_sysJoin_empty :
    ∀ ss : List String, (∀ s ∈ ss, s ≠ "") →
      List.foldl sysJoin "" ss = joinNL ss := by
  intro ss hall
  cases ss with
  | nil => rfl
  | cons s tl =>
    have hs : s ≠ "" := hall s (List.mem_cons_self _ _)
    show List.foldl sysJoin (sysJoin "" s) tl = _
    have hjs : sysJoin "" s = s := by unfold sysJoin; rw [if_pos rfl]; rfl
    rw [hjs]
    cases tl with
    | nil => rfl
    | cons s' r =>
      rw [foldl_sysJoin_ne (s' :: r) s (List.cons_ne_nil s' r) hs]
      rfl

theorem geminiContents_sysBlock_user (ss : List String) (u : String)
    (rest : List ChatMsg) (hne : ss ≠ []) (hall : ∀ s ∈ ss, s ≠ "")
    (hu : u ≠ "") :
    geminiContents (sysMsgs ss ++ usrMsg u :: rest) =
      ⟨"user", [joinNL ss ++ "\n\n" ++ u]⟩ :: geminiContents rest := by
  unfold geminiContents
  rw [geminiWalk_sysBlock ss (usrMsg u :: rest) "" hall,
    foldl_sysJoin_empty ss hall,
    geminiWalk_user_inject u rest (joinNL ss) hu (joinNL_ne_empty ss hne hall)]

theorem geminiContents_sysBlock_alone (ss : List String)
    (hne : ss ≠ []) (hall : ∀ s ∈ ss, s ≠ "") :
    geminiContents (sysMsgs ss) = [⟨"user", [joinNL ss]⟩] := by
  unfold geminiContents
  have h0 : sysMsgs ss = sysMsgs ss ++ ([] : List ChatMsg) := by simp
  rw [h0, geminiWalk_sysBlock ss [] "" hall,
    foldl_sysJoin_empty ss hall]
  simp [geminiWalk, joinNL_ne_empty ss hne hall]

theorem geminiWalk_roles :
    ∀ msgs : List ChatMsg, ∀ acc t, t ∈ geminiWalk msgs acc →
      t.role = "user" ∨ t.role = "model" := by
  intro msgs
  induction msgs with
  | nil =>
    intro acc t ht
    by_cases h : acc = ""
    · simp [geminiWalk, h] at ht
    · simp only [geminiWalk, if_neg h, List.mem_singleton] at ht
      subst ht
      exact Or.inl rfl
  | cons m rest ih =>
    intro acc t ht
    by_cases h1 : jsTruthy m.role = false ∨ jsTruthy m.content = false
    · rw [geminiWalk_skip m rest acc h1] at ht
      exact ih acc t ht
    · by_cases h2 : m.role = JSVal.str "system"
      · simp only [geminiWalk, if_neg h1, if_pos h2] at ht
        exact ih _ t ht
      · simp only [geminiWalk, if_neg h1, if_neg h2] at ht
        by_cases h3 : acc ≠ "" ∧
            (if m.role = JSVal.str "assistant" then "model" else "user") = "user"
        · rw [if_pos h3] at ht
          rcases List.mem_cons.mp ht with h | h
          · subst h; exact Or.inl h3.2
          · exact ih _ t h
        · rw [if_neg h3] at ht
          rcases List.mem_cons.mp ht with h | h
          · subst h
            by_cases h4 : m.role = JSVal.str "assistant"
            · right; simp [if_pos h4]
            · left; simp [if_neg h4]
          · exact ih _ t h

theorem geminiWalk_drop (m : ChatMsg) (post : List ChatMsg)
    (hm : jsTruthy m.role = false ∨ jsTruthy m.content = false) :
    ∀ pre : List ChatMsg, ∀ acc,
      geminiWalk (pre ++ m :: post) acc = geminiWalk (pre ++ post) acc := by
  intro pre
  induction pre with
  | nil =>
    intro acc
    simp only [List.nil_append]
    exact geminiWalk_skip m post acc hm
  | cons m' pre ih =>
    intro acc
    simp only [List.cons_append]
    by_cases h1 : jsTruthy m'.role = false ∨ jsTruthy m'.content = false
    · rw [geminiWalk_skip m' _ acc h1, geminiWalk_skip m' _ acc h1, ih]
    · by_cases h2 : m'.role = JSVal.str "system"
      · simp only [geminiWalk, if_neg h1, if_pos h2, ih]
      · simp only [geminiWalk, if_neg h1, if_neg h2, ih]

theorem dropWhile_all_true (p : Char → Bool) :
    ∀ l : List Char, (∀ c ∈ l, p c = true) → l.dropWhile p = [] := by
  intro l
  induction l with
  | nil => intro _; rfl
  | cons c r ih =>
    intro h
    rw [List.dropWhile_cons, if_pos (h c (List.mem_cons_self _ _))]
    exact ih (fun d hd => h d (List.mem_cons_of_mem c hd))

theorem jsTrim_all_ws (s : String) (h : ∀ c ∈ s.toList, isJsWs c = true) :
    jsTrim s = "" := by
  unfold jsTrim
  rw [dropWhile_all_true isJsWs s.toList h]
  rfl

theorem callGroq_first_ok (env : GroqEnv) (req : Option String) (p : Preset)
    (hk : env.hasKey = true) (hok : (groqResp0 env req p).ok = true) :
    callGroq env req p =
      (groqFinish (groqResp0 env req p), [(0, groqModel0 env req p)]) := by
  unfold callGroq
  unfold groqResp0 groqModel0 at *
  simp only [hk, hok]
  simp

theorem callGroq_terminal_no_retry (env : GroqEnv) (req : Option String)
    (p : Preset) (hk : env.hasKey = true)
    (hok : (groqResp0 env req p).ok = false)
    (hdec : isDecommissionedHttp (groqResp0 env req p).status
      (groqResp0 env req p).text = false) :
    callGroq env req p =
      (Except.error ("groq_http_" ++ natStr (groqResp0 env req p).status
        ++ ":" ++ (groqResp0 env req p).text),
       [(0, groqModel0 env req p)]) := by
  unfold callGroq
  unfold groqResp0 groqModel0 at *
  simp only [hk, hok, hdec]
  simp

theorem callGroq_retry_terminal (env : GroqEnv) (req : Option String)
    (p : Preset) (hk : env.hasKey = true)
    (hok : (groqResp0 env req p).ok = false)
    (hdec : isDecommissionedHttp (groqResp0 env req p).status
      (groqResp0 env req p).text = true)
    (hr1 : (groqResp1 env p).ok = false) :
    callGroq env req p =
      (Except.error ("groq_http_" ++ natStr (groqResp1 env p).status
        ++ ":" ++ (groqResp1 env p).text),
       [(0, groqModel0 env req p), (1, groqModel1 env p)]) := by
  unfold callGroq
  unfold groqResp0 groqResp1 groqModel0 groqModel1 at *
  simp only [hk, hok, hdec]
  simp [hr1]

theorem callGroq_retry_ok (env : GroqEnv) (req : Option String) (p : Preset)
    (hk : env.hasKey = true) (hok : (groqResp0 env req p).ok = false)
    (hdec : isDecommissionedHttp (groqResp0 env req p).status
      (groqResp0 env req p).text = true)
    (hr1 : (groqResp1 env p).ok = true) :
    callGroq env req p =
      (groqFinish (groqResp1 env p),
       [(0, groqModel0 env req p), (1, groqModel1 env p)]) := by
  unfold callGroq
  unfold groqResp0 groqResp1 groqModel0 groqModel1 at *
  simp only [hk, hok, hdec]
  simp [hr1]

theorem callGemini_first_ok (env : GemEnv) (b : ReqBody) (p : Preset)
    (hk : env.hasKey = true) (hok : (gemResp0 env b p).ok = true) :
    callGemini env b p =
      (gemFinish (gemResp0 env b p), [(0, gemModel0 env b p)]) := by
  unfold callGemini
  unfold gemResp0 gemModel0 at *
  simp only [hk, hok]
  simp

theorem callGemini_terminal_no_retry (env : GemEnv) (b : ReqBody) (p : Preset)
    (hk : env.hasKey = true) (hok : (gemResp0 env b p).ok = false)
    (hdec : isDecommissionedHttp (gemResp0 env b p).status
      (gemResp0 env b p).text = false) :
    callGemini env b p =
      (Except.error ("gemini_http_" ++ natStr (gemResp0 env b p).status
        ++ ":" ++ (gemResp0 env b p).text),
       [(0, gemModel0 env b p)]) := by
  unfold callGemini
  unfold gemResp0 gemModel0 at *
  simp only [hk, hok, hdec]
  simp

theorem callGemini_retry_terminal (env : GemEnv) (b : ReqBody) (p : Preset)
    (hk : env.hasKey = true) (hok : (gemResp0 env b p).ok = false)
    (hdec : isDecommissionedHttp (gemResp0 env b p).status
      (gemResp0 env b p).text = true)
    (hr1 : (gemResp1 env b p).ok = false) :
    callGemini env b p =
      (Except.error ("gemini_http_" ++ natStr (gemResp1 env b p).status
        ++ ":" ++ (gemResp1 env b p).text),
       [(0, gemModel0 env b p), (1, gemModel1 env p)]) := by
  unfold callGemini
  unfold gemResp0 gemResp1 gemModel0 gemModel1 at *
  simp only [hk, hok, hdec]
  simp [hr1]

theorem callGemini_retry_ok (env : GemEnv) (b : ReqBody) (p : Preset)
    (hk : env.hasKey = true) (hok : (gemResp0 env b p).ok = false)
    (hdec : isDecommissionedHttp (gemResp0 env b p).status
      (gemResp0 env b p).text = true)
    (hr1 : (gemResp1 env b p).ok = true) :
    callGemini env b p =
      (gemFinish (gemResp1 env b p),
       [(0, gemModel0 env b p), (1, gemModel1 env p)]) := by
  unfold callGemini
  unfold gemResp0 gemResp1 gemModel0 gemModel1 at *
  simp only [hk, hok, hdec]
  simp [hr1]

theorem callGemini_log_ne (env : GemEnv) (b : ReqBody) (p : Preset)
    (hk : env.hasKey = true) : (callGemini env b p).2 ≠ [] := by
  unfold callGemini
  simp only [hk]
  by_cases h0 : (env.chat 0 (resolveGeminiModel (env.catalog 0) b.model p)
      (openAIToGeminiBody b)).ok = false
  · simp only [h0]
    by_cases hd : isDecommissionedHttp
        (env.chat 0 (resolveGeminiModel (env.catalog 0) b.model p)
          (openAIToGeminiBody b)).status
        (env.chat 0 (resolveGeminiModel (env.catalog 0) b.model p)
          (openAIToGeminiBody b)).text
    · simp only [hd]
      by_cases h1 : (env.chat 1 (resolveGeminiModel (env.catalog 1) none p)
          (openAIToGeminiBody b)).ok = false
      · simp [h1]
      · simp [h1]
    · simp [hd]
  · simp [h0]

/-- C8: any preset value other than the exact string `quality` — absent
(undefined), null, differently-cased strings, arbitrary values — is
silently coerced to `speed`; coercion is total, so no preset value is
ever rejected as invalid. -/
theorem C8_preset_coercion :
    (∀ v : JSVal, coercePreset v = Preset.quality ↔ v = JSVal.str "quality")
    ∧ (∀ v : JSVal, coercePreset v = Preset.speed ∨
        coercePreset v = Preset.quality)
    ∧ coercePreset JSVal.undef = Preset.speed
    ∧ coercePreset JSVal.jsNull = Preset.speed
    ∧ coercePreset (JSVal.str "Quality") = Preset.speed
    ∧ coercePreset (JSVal.num 1) = Preset.speed := by
  refine ⟨?_, ?_, by decide, by decide, by decide, by decide⟩
  · intro v
    constructor
    · intro h
      by_contra hv
      rw [coercePreset, if_neg hv] at h
      exact Preset.noConfusion h
    · intro h
      rw [coercePreset, if_pos h]
  · intro v
    rw [coercePreset]
    by_cases h : v = JSVal.str "quality"
    · rw [if_pos h]; exact Or.inr rfl
    · rw [if_neg h]; exact Or.inl rfl

/-- C5: from a fresh window, the (k+1)-st admit call returns true exactly
when k+1 ≤ 60 — calls 1 through 60 admitted, call 61 onward rejected —
the stored counter after k+1 calls is the rendered k+1, and every call,
admitted or rejected, increments and re-persists the counter, the verdict
being the post-increment count ≤ 60. -/
theorem C5_rate_limit_window :
    (∀ k : Nat, (rateLimitCall (rlState k)).2 = decide (k + 1 ≤ 60))
    ∧ (∀ k : Nat, rlState (k + 1) = some (natStr (k + 1)))
    ∧ (∀ n : Nat, rateLimitCall (some (natStr n)) =
        (some (natStr (n + 1)), decide (n + 1 ≤ 60))) :=
  ⟨rateLimitVerdict, rlState_eq, rateLimitCall_natStr⟩

/-- C3 counterexample: with the live catalog holding exactly the empty
string and the empty string explicitly requested, the requested model is
present in the catalog yet resolution returns the hardcoded default
instead of the requested id (and instead of the first catalog entry):
JS falsiness skips both the explicit-hit check and `available[0]`. -/
theorem C3_counterexample :
    "" ∈ ([""] : List String)
    ∧ resolveGroqModel [""] (some "") Preset.speed = "llama-3.1-8b-instant"
    ∧ resolveGroqModel [""] (some "") Preset.speed ≠ "" :=
  ⟨List.mem_singleton.mpr rfl, by decide, by decide⟩

/-- C3 (amended): resolution is total by construction and ordered: a
nonempty requested id present in the catalog is returned unchanged
regardless of preset; otherwise (requested absent, empty, or not in the
catalog) the first preset-priority entry present in the catalog;
otherwise `available[0] || default`, where the hardcoded default replaces
an empty catalog or an empty-string first entry — for both providers. -/
theorem C3_resolution_order :
    (∀ avail (r : String) p, r ≠ "" → r ∈ avail →
      resolveGroqModel avail (some r) p = r)
    ∧ (∀ avail req p m, requestedMiss avail req →
        pickFirstAvailable (if p = Preset.quality then GROQ_QUALITY_PRIORITY
          else GROQ_SPEED_PRIORITY) avail = some m →
        resolveGroqModel avail req p = m)
    ∧ (∀ avail req p, requestedMiss avail req →
        pickFirstAvailable (if p = Preset.quality then GROQ_QUALITY_PRIORITY
          else GROQ_SPEED_PRIORITY) avail = none →
        resolveGroqModel avail req p = jsHeadOr avail "llama-3.1-8b-instant")
    ∧ (∀ avail (r : String) p, r ≠ "" → r ∈ avail →
        resolveGeminiModel avail (some r) p = r)
    ∧ (∀ avail req p m, requestedMiss avail req →
        pickFirstAvailable (if p = Preset.quality then GEMINI_QUALITY_PRIORITY
          else GEMINI_SPEED_PRIORITY) avail = some m →
        resolveGeminiModel avail req p = m)
    ∧ (∀ avail req p, requestedMiss avail req →
        pickFirstAvailable (if p = Preset.quality then GEMINI_QUALITY_PRIORITY
          else GEMINI_SPEED_PRIORITY) avail = none →
        resolveGeminiModel avail req p = jsHeadOr avail "gemini-2.5-flash") := by
  refine ⟨?_, ?_, ?_, ?_, ?_, ?_⟩
  · intro avail r p hr hm
    unfold resolveGroqModel
    simp [hr, hm]
  · intro avail req p m hmiss hpick
    unfold resolveGroqModel
    cases req with
    | none => simp [hpick]
    | some r =>
      rcases hmiss with h | h
      · subst h; simp [hpick]
      · simp [h, hpick]
  · intro avail req p hmiss hpick
    unfold resolveGroqModel
    cases req with
    | none => simp [hpick]
    | some r =>
      rcases hmiss with h | h
      · subst h; simp [hpick]
      · simp [h, hpick]
  · intro avail r p hr hm
    unfold resolveGeminiModel
    simp [hr, hm]
  · intro avail req p m hmiss hpick
    unfold resolveGeminiModel
    cases req with
    | none => simp [hpick]
    | some r =>
      rcases hmiss with h | h
      · subst h; simp [hpick]
      · simp [h, hpick]
  · intro avail req p hmiss hpick
    unfold resolveGeminiModel
    cases req with
    | none => simp [hpick]
    | some r =>
      rcases hmiss with h | h
      · subst h; simp [hpick]
      · simp [h, hpick]

/-- C3 witness: the explicit-hit clause at a nonempty requested id present
in a concrete catalog. -/
theorem C3_resolution_order_witness :
    ("m2" : String) ≠ ""
    ∧ "m2" ∈ (["m1", "m2"] : List String)
    ∧ resolveGroqModel ["m1", "m2"] (some "m2") Preset.quality = "m2" :=
  ⟨by decide, by decide,
   C3_resolution_order.1 ["m1", "m2"] "m2" Preset.quality (by decide) (by decide)⟩

/-- C4: the translation merges a block of system contents newline-joined
in arrival order into one prefix injected exactly once, blank-line
separated, into the first following user turn (the remainder translating
with the prefix cleared); a prefix with no following user turn becomes a
single trailing standalone user turn; no output turn ever carries a
system role; and the three listed examples hold verbatim. -/
theorem C4_system_prefix_merge :
    (∀ msgs t, t ∈ geminiContents msgs → t.role = "user" ∨ t.role = "model")
    ∧ (∀ ss u rest, ss ≠ [] → (∀ s ∈ ss, s ≠ "") → u ≠ "" →
        geminiContents (sysMsgs ss ++ usrMsg u :: rest) =
          ⟨"user", [joinNL ss ++ "\n\n" ++ u]⟩ :: geminiContents rest)
    ∧ (∀ ss, ss ≠ [] → (∀ s ∈ ss, s ≠ "") →
        geminiContents (sysMsgs ss) = [⟨"user", [joinNL ss]⟩])
    ∧ geminiContents [sysMsg "S", usrMsg "U"] = [⟨"user", ["S\n\nU"]⟩]
    ∧ geminiContents [sysMsg "S"] = [⟨"user", ["S"]⟩]
    ∧ geminiContents [sysMsg "A", sysMsg "B", usrMsg "U"] =
        [⟨"user", ["A\nB\n\nU"]⟩] :=
  ⟨fun msgs => geminiWalk_roles msgs "", geminiContents_sysBlock_user,
   geminiContents_sysBlock_alone, by decide, by decide, by decide⟩

/-- C4 witness: the merge-and-inject clause at the concrete block
[system A, system B, user U]. -/
theorem C4_system_prefix_merge_witness :
    (["A", "B"] : List String) ≠ []
    ∧ (∀ s ∈ (["A", "B"] : List String), s ≠ "")
    ∧ ("U" : String) ≠ ""
    ∧ geminiContents (sysMsgs ["A", "B"] ++ usrMsg "U" :: []) =
        ⟨"user", [joinNL ["A", "B"] ++ "\n\n" ++ "U"]⟩ :: geminiContents [] :=
  ⟨by decide, by decide, by decide,
   C4_system_prefix_merge.2.1 ["A", "B"] "U" [] (by decide) (by decide)
     (by decide)⟩

/-- C10: a message whose content is falsy — the empty string, the number
0, or false — is dropped wholesale by the translation even with a present
and valid role, contributing neither a turn nor any system-prefix text:
deleting the message from the input leaves the translated body unchanged. -/
theorem C10_falsy_content_dropped :
    (∀ (pv ps : JSVal) (mo : Option String) (t mt ef : JSVal)
       (pre post : List ChatMsg) (m : ChatMsg),
       jsTruthy m.content = false →
       openAIToGeminiBody ⟨pv, ps, mo, some (pre ++ m :: post), t, mt, ef⟩ =
         openAIToGeminiBody ⟨pv, ps, mo, some (pre ++ post), t, mt, ef⟩)
    ∧ geminiContents [⟨JSVal.str "user", JSVal.str ""⟩] = []
    ∧ geminiContents [⟨JSVal.str "user", JSVal.num 0⟩] = []
    ∧ geminiContents [⟨JSVal.str "user", JSVal.boolV false⟩] = []
    ∧ geminiContents [⟨JSVal.str "system", JSVal.str ""⟩, usrMsg "U"] =
        [⟨"user", ["U"]⟩] := by
  refine ⟨?_, by decide, by decide, by decide, by decide⟩
  intro pv ps mo t mt ef pre post m hm
  unfold openAIToGeminiBody
  simp only [Option.getD_some]
  congr 1
  unfold geminiContents
  exact geminiWalk_drop m post (Or.inr hm) pre ""

/-- C10 witness: the deletion clause at a concrete message with role user
and content 0 between two kept user messages. -/
theorem C10_falsy_content_dropped_witness :
    jsTruthy (JSVal.num 0) = false
    ∧ openAIToGeminiBody ⟨JSVal.undef, JSVal.undef, none,
        some ([usrMsg "A"] ++ ⟨JSVal.str "user", JSVal.num 0⟩ :: [usrMsg "B"]),
        JSVal.undef, JSVal.undef, JSVal.undef⟩ =
      openAIToGeminiBody ⟨JSVal.undef, JSVal.undef, none,
        some ([usrMsg "A"] ++ [usrMsg "B"]),
        JSVal.undef, JSVal.undef, JSVal.undef⟩ :=
  ⟨by decide,
   C10_falsy_content_dropped.1 JSVal.undef JSVal.undef none JSVal.undef
     JSVal.undef JSVal.undef [usrMsg "A"] [usrMsg "B"]
     ⟨JSVal.str "user", JSVal.num 0⟩ (by decide)⟩

/-- C2: a failed attempt is classified decommissioned exactly when the
status is 404, or 400 with a body matching the case-insensitive
decommission/not-found pattern; a first attempt that succeeds, or fails
without that classification, produces exactly one logged attempt (no
retry), the latter terminally; on the classification the model is
re-resolved with the requested model cleared and the call retried exactly
once (the log is exactly the two attempts, the second for the
re-resolved model), a retry failure of any kind being terminal — for both
providers. -/
theorem C2_decommission_classification_retry :
    (∀ status body, isDecommissionedHttp status body = true ↔
      (status = 404 ∨ (status = 400 ∧ regexDecommSpec (lowerChars body.toList))))
    ∧ (∀ env req p, env.hasKey = true → (groqResp0 env req p).ok = true →
        callGroq env req p =
          (groqFinish (groqResp0 env req p), [(0, groqModel0 env req p)]))
    ∧ (∀ env req p, env.hasKey = true → (groqResp0 env req p).ok = false →
        isDecommissionedHttp (groqResp0 env req p).status
          (groqResp0 env req p).text = false →
        callGroq env req p =
          (Except.error ("groq_http_" ++ natStr (groqResp0 env req p).status
            ++ ":" ++ (groqResp0 env req p).text),
           [(0, groqModel0 env req p)]))
    ∧ (∀ env req p, env.hasKey = true → (groqResp0 env req p).ok = false →
        isDecommissionedHttp (groqResp0 env req p).status
          (groqResp0 env req p).text = true →
        (groqResp1 env p).ok = false →
        callGroq env req p =
          (Except.error ("groq_http_" ++ natStr (groqResp1 env p).status
            ++ ":" ++ (groqResp1 env p).text),
           [(0, groqModel0 env req p), (1, groqModel1 env p)]))
    ∧ (∀ env req p, env.hasKey = true → (groqResp0 env req p).ok = false →
        isDecommissionedHttp (groqResp0 env req p).status
          (groqResp0 env req p).text = true →
        (groqResp1 env p).ok = true →
        callGroq env req p =
          (groqFinish (groqResp1 env p),
           [(0, groqModel0 env req p), (1, groqModel1 env p)]))
    ∧ (∀ env b p, env.hasKey = true → (gemResp0 env b p).ok = true →
        callGemini env b p =
          (gemFinish (gemResp0 env b p), [(0, gemModel0 env b p)]))
    ∧ (∀ env b p, env.hasKey = true → (gemResp0 env b p).ok = false →
        isDecommissionedHttp (gemResp0 env b p).status
          (gemResp0 env b p).text = false →
        callGemini env b p =
          (Except.error ("gemini_http_" ++ natStr (gemResp0 env b p).status
            ++ ":" ++ (gemResp0 env b p).text),
           [(0, gemModel0 env b p)]))
    ∧ (∀ env b p, env.hasKey = true → (gemResp0 env b p).ok = false →
        isDecommissionedHttp (gemResp0 env b p).status
          (gemResp0 env b p).text = true →
        (gemResp1 env b p).ok = false →
        callGemini env b p =
          (Except.error ("gemini_http_" ++ natStr (gemResp1 env b p).status
            ++ ":" ++ (gemResp1 env b p).text),
           [(0, gemModel0 env b p), (1, gemModel1 env p)]))
    ∧ (∀ env b p, env.hasKey = true → (gemResp0 env b p).ok = false →
        isDecommissionedHttp (gemResp0 env b p).status
          (gemResp0 env b p).text = true →
        (gemResp1 env b p).ok = true →
        callGemini env b p =
          (gemFinish (gemResp1 env b p),
           [(0, gemModel0 env b p), (1, gemModel1 env p)])) := by
  refine ⟨?_, callGroq_first_ok, callGroq_terminal_no_retry,
    callGroq_retry_terminal, callGroq_retry_ok, callGemini_first_ok,
    callGemini_terminal_no_retry, callGemini_retry_terminal,
    callGemini_retry_ok⟩
  intro status body
  unfold isDecommissionedHttp
  by_cases h4 : status = 404
  · simp [h4]
  · rw [if_neg h4]
    by_cases h0 : status = 400
    · by_cases hm : decommBodyMatch body = true
      · constructor
        · intro _
          exact Or.inr ⟨h0, (findModelThenKw_iff _).mp hm⟩
        · intro _
          simp [h0, hm]
      · have hmf : decommBodyMatch body = false := by
          cases hb : decommBodyMatch body
          · rfl
          · exact absurd hb hm
        simp only [h0, hmf]
        constructor
        · intro h; simp at h
        · rintro (h | ⟨_, hspec⟩)
          · exact absurd h (by decide)
          · exact absurd ((findModelThenKw_iff _).mpr hspec) hm
    · have hcond : (decide (status = 400) && decommBodyMatch body) = false := by
        simp [h0]
      simp only [hcond]
      constructor
      · intro h; simp at h
      · rintro (h | ⟨h, _⟩)
        · exact absurd h h4
        · exact absurd h h0

/-- C2 witness: the retry-then-terminal clause at a concrete environment
whose first attempt 404s and whose retry fails with status 500. -/
theorem C2_decommission_classification_retry_witness :
    c2groqEnv.hasKey = true
    ∧ (groqResp0 c2groqEnv none Preset.speed).ok = false
    ∧ isDecommissionedHttp (groqResp0 c2groqEnv none Preset.speed).status
        (groqResp0 c2groqEnv none Preset.speed).text = true
    ∧ (groqResp1 c2groqEnv Preset.speed).ok = false
    ∧ callGroq c2groqEnv none Preset.speed =
        (Except.error ("groq_http_" ++ natStr (groqResp1 c2groqEnv Preset.speed).status
          ++ ":" ++ (groqResp1 c2groqEnv Preset.speed).text),
         [(0, groqModel0 c2groqEnv none Preset.speed),
          (1, groqModel1 c2groqEnv Preset.speed)]) :=
  ⟨rfl, by decide, by decide, by decide,
   C2_decommission_classification_retry.2.2.2.1 c2groqEnv none Preset.speed
     rfl (by decide) (by decide) (by decide)⟩

/-- C6 counterexample: a provider-A response whose extracted answer is the
whitespace-only string of one space — blank after trimming — is returned
to the caller as a success, not classified as empty: the final variant's
check `!txt || typeof txt !== 'string'` does not trim. -/
theorem C6_counterexample :
    callGroq c6groqEnv none Preset.speed =
      (Except.ok (toOpenAIResponse " "), [(0, "llama-3.1-8b-instant")])
    ∧ jsTrim " " = "" :=
  ⟨by decide, by decide⟩

/-- C6 (amended): provider A classifies a missing, non-string, or
empty-string answer as empty — every success carries a truthy string —
but returns whitespace-only non-empty strings as success (no trimming);
provider B joins part texts, trims, classifies an empty trimmed result —
in particular any whitespace-only join — as empty, and every provider-B
success has a non-empty extracted text. -/
theorem C6_empty_response_classification :
    (∀ r out, groqFinish r = Except.ok out →
      jsTruthy r.content = true ∧ isStrV r.content = true)
    ∧ (∀ r : GroqResp, r.jsonOk = true →
        (jsTruthy r.content = false ∨ isStrV r.content = false) →
        groqFinish r = Except.error "groq_empty")
    ∧ groqFinish ⟨true, 200, "", true, JSVal.str " "⟩ =
        Except.ok (toOpenAIResponse " ")
    ∧ (∀ r : GemResp, r.jsonOk = true → geminiExtractText r.parts = "" →
        gemFinish r = Except.error "gemini_empty")
    ∧ (∀ r out, gemFinish r = Except.ok out → geminiExtractText r.parts ≠ "")
    ∧ (∀ ps, (∀ c ∈ (String.intercalate "\n" (geminiPartStrings ps)).toList,
        isJsWs c = true) → geminiExtractText (some ps) = "") := by
  refine ⟨?_, ?_, by decide, ?_, ?_, ?_⟩
  · intro r out h
    unfold groqFinish at h
    by_cases hj : r.jsonOk = false
    · rw [if_pos hj] at h; cases h
    · rw [if_neg hj] at h
      by_cases hc : jsTruthy r.content = false ∨ isStrV r.content = false
      · rw [if_pos hc] at h; cases h
      · push_neg at hc
        exact ⟨Bool.ne_false_iff.mp hc.1, Bool.ne_false_iff.mp hc.2⟩
  · intro r hj hc
    unfold groqFinish
    rw [if_neg (by simp [hj]), if_pos hc]
  · intro r hj he
    unfold gemFinish
    rw [if_neg (by simp [hj])]
    simp [he]
  · intro r out h
    unfold gemFinish at h
    by_cases hj : r.jsonOk = false
    · rw [if_pos hj] at h; cases h
    · rw [if_neg hj] at h
      by_cases he : geminiExtractText r.parts = ""
      · simp only [he, if_pos] at h; cases h
      · exact he
  · intro ps hws
    unfold geminiExtractText
    exact jsTrim_all_ws _ hws

/-- C6 witness: the empty-classification clause at a concrete provider-A
response whose answer is the empty string. -/
theorem C6_empty_response_classification_witness :
    (⟨true, 200, "", true, JSVal.str ""⟩ : GroqResp).jsonOk = true
    ∧ (jsTruthy (JSVal.str "") = false ∨ isStrV (JSVal.str "") = false)
    ∧ groqFinish ⟨true, 200, "", true, JSVal.str ""⟩ =
        Except.error "groq_empty" :=
  ⟨rfl, Or.inl (by decide),
   C6_empty_response_classification.2.1 ⟨true, 200, "", true, JSVal.str ""⟩
     rfl (Or.inl (by decide))⟩

/-- C7 (amended): explicit provider-A selection with the first upstream
attempt returning 404 and a well-formed successful retry: exactly one
retry occurs — the attempt log is precisely the two attempts — the retry
uses the priority-resolved model with the requested model cleared (which
may coincide with the original explicit id), and the caller receives
HTTP 200 with no visible error. -/
theorem C7_explicit_groq_404_retry (kv : Option String) (b : ReqBody)
    (genv : GroqEnv) (gmenv : GemEnv)
    (hrl : (rateLimitCall kv).2 = true)
    (hp : providerChoice b.provider = JSVal.str "groq")
    (hk : genv.hasKey = true)
    (h0 : (groqResp0 genv b.model (coercePreset b.preset)).ok = false)
    (h404 : (groqResp0 genv b.model (coercePreset b.preset)).status = 404)
    (h1 : (groqResp1 genv (coercePreset b.preset)).ok = true)
    (hj : (groqResp1 genv (coercePreset b.preset)).jsonOk = true)
    (ht : jsTruthy (groqResp1 genv (coercePreset b.preset)).content = true)
    (hs : isStrV (groqResp1 genv (coercePreset b.preset)).content = true) :
    postChat kv (some b) genv gmenv =
      ⟨200, Except.ok (toOpenAIResponse
          (jsToString (groqResp1 genv (coercePreset b.preset)).content)),
       (rateLimitCall kv).1,
       [(0, groqModel0 genv b.model (coercePreset b.preset)),
        (1, groqModel1 genv (coercePreset b.preset))], []⟩ := by
  have hdec : isDecommissionedHttp
      (groqResp0 genv b.model (coercePreset b.preset)).status
      (groqResp0 genv b.model (coercePreset b.preset)).text = true := by
    rw [h404]
    simp [isDecommissionedHttp]
  have hcall := callGroq_retry_ok genv b.model (coercePreset b.preset)
    hk h0 hdec h1
  have hfin : groqFinish (groqResp1 genv (coercePreset b.preset)) =
      Except.ok (toOpenAIResponse
        (jsToString (groqResp1 genv (coercePreset b.preset)).content)) := by
    unfold groqFinish
    rw [if_neg (by simp [hj]), if_neg (by simp [ht, hs])]
  unfold postChat
  simp only [hrl, hp, hcall, hfin]
  simp

/-- C7 counterexample: catalog holding exactly the id that heads the speed
priority list, that same id explicitly requested, upstream 404 on the
first attempt: the retry re-resolves to the very same id as the original
request's explicit model id — the re-resolved id is not different — while
one retry occurs and the retry's success yields HTTP 200. -/
theorem C7_counterexample :
    c7body.model = some "llama-3.1-8b-instant"
    ∧ (groqResp0 c7groqEnv c7body.model (coercePreset c7body.preset)).status
        = 404
    ∧ groqModel1 c7groqEnv (coercePreset c7body.preset)
        = "llama-3.1-8b-instant"
    ∧ postChat none (some c7body) c7groqEnv noKeyGemEnv =
        ⟨200, Except.ok (toOpenAIResponse "hi"), some "1",
         [(0, "llama-3.1-8b-instant"), (1, "llama-3.1-8b-instant")], []⟩ :=
  ⟨rfl, by decide, by decide, by decide⟩

/-- C7 witness: the amended scenario at the concrete environment of the
counterexample catalog, discharging every hypothesis by evaluation. -/
theorem C7_explicit_groq_404_retry_witness :
    (rateLimitCall none).2 = true
    ∧ providerChoice c7body.provider = JSVal.str "groq"
    ∧ c7groqEnv.hasKey = true
    ∧ (groqResp0 c7groqEnv c7body.model (coercePreset c7body.preset)).ok = false
    ∧ (groqResp0 c7groqEnv c7body.model (coercePreset c7body.preset)).status = 404
    ∧ (groqResp1 c7groqEnv (coercePreset c7body.preset)).ok = true
    ∧ postChat none (some c7body) c7groqEnv noKeyGemEnv =
        ⟨200, Except.ok (toOpenAIResponse
            (jsToString (groqResp1 c7groqEnv (coercePreset c7body.preset)).content)),
         (rateLimitCall none).1,
         [(0, groqModel0 c7groqEnv c7body.model (coercePreset c7body.preset)),
          (1, groqModel1 c7groqEnv (coercePreset c7body.preset))], []⟩ :=
  ⟨by decide, rfl, rfl, by decide, by decide, by decide,
   C7_explicit_groq_404_retry none c7body c7groqEnv noKeyGemEnv (by decide)
     rfl rfl (by decide) (by decide) (by decide) (by decide) (by decide)
     (by decide)⟩

/-- C9: the rate limiter runs before the body is read — a rejected request
is answered 429 with an outcome independent of the body (even an
unparseable one), an admitted request with a malformed body is answered
500 server_error, and in both cases the client's window counter has
already been incremented and persisted. -/
theorem C9_rate_limit_before_parse :
    (∀ kv genv gmenv, (rateLimitCall kv).2 = true →
      postChat kv none genv gmenv =
        ⟨500, Except.error "server_error", (rateLimitCall kv).1, [], []⟩)
    ∧ (∀ kv parsed genv gmenv, (rateLimitCall kv).2 = false →
        postChat kv parsed genv gmenv =
          ⟨429, Except.error "rate_limited", (rateLimitCall kv).1, [], []⟩)
    ∧ (∀ n : Nat, rateLimitCall (some (natStr n)) =
        (some (natStr (n + 1)), decide (n + 1 ≤ 60))) := by
  refine ⟨?_, ?_, rateLimitCall_natStr⟩
  · intro kv genv gmenv h
    unfold postChat
    simp [h]
  · intro kv parsed genv gmenv h
    unfold postChat
    simp [h]

/-- C9 witness: a malformed body on a fresh window yields 500 with the
counter set to 1, and a malformed body on an exhausted window yields 429
— the parse result never consulted. -/
theorem C9_rate_limit_before_parse_witness :
    (rateLimitCall none).2 = true
    ∧ postChat none none noKeyGroqEnv noKeyGemEnv =
        ⟨500, Except.error "server_error", (rateLimitCall none).1, [], []⟩
    ∧ (rateLimitCall (some "60")).2 = false
    ∧ postChat (some "60") none noKeyGroqEnv noKeyGemEnv =
        ⟨429, Except.error "rate_limited", (rateLimitCall (some "60")).1,
         [], []⟩ :=
  ⟨by decide,
   C9_rate_limit_before_parse.1 none noKeyGroqEnv noKeyGemEnv (by decide),
   by decide,
   C9_rate_limit_before_parse.2.1 (some "60") none noKeyGroqEnv noKeyGemEnv
     (by decide)⟩

/-- C1 counterexample: a request carrying enable_fallback = false in auto
mode, with provider A failing and provider B's credential configured:
provider B IS contacted (its attempt log is non-empty) and its answer is
returned with HTTP 200 — not the claimed direct 502 with provider B never
contacted.  The final variant never reads enable_fallback. -/
theorem C1_counterexample :
    efFalseBody.enable_fallback = JSVal.boolV false
    ∧ postChat none (some efFalseBody) noKeyGroqEnv c1gemEnv =
        ⟨200, Except.ok (toOpenAIResponse "gem"), some "1", [],
         [(0, "gemini-2.5-flash")]⟩
    ∧ (postChat none (some efFalseBody) noKeyGroqEnv c1gemEnv).status ≠ 502
    ∧ (postChat none (some efFalseBody) noKeyGroqEnv c1gemEnv).gemLog ≠ [] :=
  ⟨rfl, by decide, by decide, by decide⟩

/-- C1 (amended): in auto mode, once provider A's call fails, provider B
is called if and only if provider B's credential is configured —
enable_fallback has no effect, as the final variant never reads it: when
provider B is unconfigured, provider A's failure surfaces directly with
HTTP 502 and provider B is never contacted (empty attempt log), and
replacing the request's enable_fallback value leaves the whole outcome
unchanged. -/
theorem C1_auto_fallback_ignores_flag :
    (∀ kv b genv gmenv e glog, (rateLimitCall kv).2 = true →
      providerChoice b.provider ≠ JSVal.str "groq" →
      providerChoice b.provider ≠ JSVal.str "gemini" →
      callGroq genv b.model (coercePreset b.preset) = (Except.error e, glog) →
      ((gmenv.hasKey = true → (postChat kv (some b) genv gmenv).gemLog ≠ [])
       ∧ (gmenv.hasKey = false →
           postChat kv (some b) genv gmenv =
             ⟨502, Except.error ("groq_failed_no_fallback:" ++ e),
              (rateLimitCall kv).1, glog, []⟩)))
    ∧ (∀ kv b v genv gmenv,
        postChat kv (some (ReqBody.mk b.provider b.preset b.model b.messages
          b.temperature b.max_tokens v)) genv gmenv =
          postChat kv (some b) genv gmenv) := by
  constructor
  · intro kv b genv gmenv e glog hrl hp1 hp2 hgroq
    unfold postChat
    simp only [hrl, hp1, hp2, hgroq]
    constructor
    · intro hk
      simp only [hk, if_true, if_neg hp1, if_neg hp2]
      rcases hcg : callGemini gmenv b (coercePreset b.preset) with ⟨res, mlog⟩
      have hlog := callGemini_log_ne gmenv b (coercePreset b.preset) hk
      rw [hcg] at hlog
      cases res <;> simp_all
    · intro hk
      simp [hk, if_neg hp1, if_neg hp2]
  · intro kv b v genv gmenv
    cases b
    rfl

/-- C1 witness: the amended statement at the concrete auto-mode request
with fallback disabled in the body, provider A unconfigured and
provider B succeeding. -/
theorem C1_auto_fallback_ignores_flag_witness :
    (rateLimitCall none).2 = true
    ∧ providerChoice efFalseBody.provider ≠ JSVal.str "groq"
    ∧ providerChoice efFalseBody.provider ≠ JSVal.str "gemini"
    ∧ callGroq noKeyGroqEnv efFalseBody.model (coercePreset efFalseBody.preset)
        = (Except.error "groq_key_missing", [])
    ∧ ((c1gemEnv.hasKey = true →
         (postChat none (some efFalseBody) noKeyGroqEnv c1gemEnv).gemLog ≠ [])
       ∧ (c1gemEnv.hasKey = false →
           postChat none (some efFalseBody) noKeyGroqEnv c1gemEnv =
             ⟨502, Except.error ("groq_failed_no_fallback:" ++ "groq_key_missing"),
              (rateLimitCall none).1, [], []⟩)) :=
  ⟨by decide, by decide, by decide, by decide,
   C1_auto_fallback_ignores_flag.1 none efFalseBody noKeyGroqEnv c1gemEnv
     "groq_key_missing" [] (by decide) (by decide) (by decide) (by decide)⟩

/-- C5 witness: the verdict clause evaluated at the 61st call. -/
theorem C5_rate_limit_window_witness :
    (rateLimitCall (rlState 60)).2 = decide (60 + 1 ≤ 60) :=
  C5_rate_limit_window.1 60

/-- C8 witness: the coercion clause evaluated at the exact string. -/
theorem C8_preset_coercion_witness :
    coercePreset (JSVal.str "quality") = Preset.quality :=
  (C8_preset_coercion.1 (JSVal.str "quality")).mpr rfl
